import Mathlib

/-!
Verification development for the pymc4 sampler-orchestration core
(`pymc4/mcmc/samplers.py`, `pymc4/inference/smc.py`,
`pymc4/distributions/state_functions.py`).

The Python code is shallowly embedded: pure functions become Lean
functions, Python exceptions become an explicit `PyErr` error value in
`Except`, TensorFlow tensors become a nested-list tensor model, and the
external collaborators (TFP kernels, `initialize_state`,
`flow.evaluate_model_*`) are modelled by their outputs, passed in as
arguments, or by deterministic stand-in functions where the spec fixes
only their shape contract.
-/

namespace PyMC4

/-- The Python exceptions raised by the embedded code.  `typeError`
corresponds to a `TypeError` (its formatted message carries the offending
type and is not modelled); `raiseStr` models Python 3 raising a plain
string, which surfaces as `TypeError: exceptions must derive from
BaseException`. -/
inductive PyErr where
  | typeError : PyErr
  | valueError : String → PyErr
  | notImplementedError : PyErr
  | indexError : PyErr
  | raiseStr : String → PyErr
  deriving DecidableEq

/-! ## Keyword-argument partitioning (`samplers.py` lines 148-207)

`_BaseSampler._assign_arguments` intersects the user kwarg names with the
accepted-parameter sets of the kernel constructor, the adaptation
constructor, and `mcmc.sample_chain`.  Those accepted sets come from
`inspect.signature` on external TFP callables, so they enter the embedding
as `Finset String` arguments.  Only the kwarg names drive the control flow
(each partition maps a retained name to the unchanged user value), so the
partitions are modelled at name level. -/

/-- `_BaseSampler._assign_arguments` (samplers.py 148-158): the three-way
partition `(adaptation_kwargs, kernel_kwargs, chain_kwargs)` of the user
keyword-argument names. -/
def assign_arguments (adaptationKeys kernelKeys chainKeys kwargsKeys : Finset String) :
    Finset String × Finset String × Finset String :=
  (adaptationKeys ∩ kwargsKeys, kernelKeys ∩ kwargsKeys, chainKeys ∩ kwargsKeys)

/-- `_BaseSampler._check_arguments` (samplers.py 160-175), first half: a
`ValueError` when any two of the three partitions share a name (Python
tests set truthiness of the pairwise intersections). -/
def check_arguments (adaptationKwargs kernelKwargs chainKwargs : Finset String) :
    Except PyErr Unit :=
  if adaptationKwargs ∩ kernelKwargs ≠ ∅ ∨ adaptationKwargs ∩ chainKwargs ≠ ∅ ∨
      kernelKwargs ∩ chainKwargs ≠ ∅ then
    .error (.valueError ("Ambiguity in setting kwargs for `kernel`, `adaptation_kernel`, `chain_sampler`"))
  else
    .ok ()

/-- `_BaseSampler._check_kwargs` (samplers.py 177-187).  Each pair is the
accepted-parameter set of one target callable (`none` when the target is
falsy, e.g. `_adaptation = None`, which the loop skips with `continue`)
together with the kwarg names assigned to that target.  The source guard is
`len(class_keys & object_kwargs.keys()) > len(class_keys)`, and on success
of the guard it raises a plain string. -/
def check_kwargs : List (Option (Finset String) × Finset String) → Except PyErr Unit
  | [] => .ok ()
  | (none, _) :: rest => check_kwargs rest
  | (some classKeys, objectKwargs) :: rest =>
    if classKeys.card < (classKeys ∩ objectKwargs).card then
      .error (.raiseStr ("does not support passed arguments"))
    else
      check_kwargs rest

/-- `_BaseSampler.__init__` (samplers.py 33-52): the model-type check, the
discrete/gradient check against `initialize_state`'s discrete names (an
external collaborator, passed in as `discNames`), then
`_assign_arguments` / `_check_arguments` (which runs `_check_kwargs`).
`_bound_kwargs` only fills missing names with class defaults
(`dict.setdefault`) and moves no user argument, so it is not modelled.
Returns the three kwarg-name partitions. -/
def samplerInit (isModel : Bool) (grad : Bool) (discNames : List String)
    (hasAdaptation : Bool) (adaptationKeys kernelKeys chainKeys : Finset String)
    (kwargsKeys : Finset String) :
    Except PyErr (Finset String × Finset String × Finset String) :=
  if isModel = false then .error .typeError
  else if grad = true ∧ discNames ≠ [] then
    .error (.valueError ("Discrete distributions can't be used with gradient-based sampler"))
  else
    match assign_arguments adaptationKeys kernelKeys chainKeys kwargsKeys with
    | (ak, kk, ck) =>
      match check_arguments ak kk ck with
      | .error e => .error e
      | .ok _ =>
        match check_kwargs [(if hasAdaptation then some adaptationKeys else none, ak),
                            (some kernelKeys, kk), (some chainKeys, ck)] with
        | .error e => .error e
        | .ok _ => .ok (ak, kk, ck)

/-- Per-class constant bindings of the registered sampler classes
(samplers.py 210-306): Python class name, `_grad`, and whether
`_adaptation` is a class rather than `None`. -/
structure SamplerClassInfo where
  pyName : String
  grad : Bool
  hasAdaptation : Bool
  deriving DecidableEq

def HMCinfo : SamplerClassInfo := ⟨"HMC", true, true⟩

def HMCSimpleInfo : SamplerClassInfo := ⟨"HMCSimple", true, true⟩

def NUTSinfo : SamplerClassInfo := ⟨"NUTS", true, true⟩

def NUTSSimpleInfo : SamplerClassInfo := ⟨"NUTSSimple", true, true⟩

def RandomWalkMinfo : SamplerClassInfo := ⟨"RandomWalkM", false, false⟩

def CompoundStepInfo : SamplerClassInfo := ⟨"CompoundStep", false, false⟩

/-! ## Compound-step variable assignment (`samplers.py` lines 308-389)

`CompoundStep._assign_default_methods` walks the unobserved variables in
declaration order, consults an optional explicit variable-to-sampler
mapping, and builds the parallel lists `make_kernel_fn`,
`kernel_kwargs` (per-part dicts), and `li` for the compound TF kernel.
The distribution metadata (`_grad_support`, a callable
`_default_new_state_part`) and the initial-state keys come from the
external `initialize_state`, so they enter the embedding as `VarInfo`
values. -/

/-- One unobserved variable as `_assign_default_methods` sees it: its key
in `state.all_unobserved_values`, its distribution's `_grad_support`, and
whether the distribution's `_default_new_state_part` is callable. -/
structure VarInfo where
  key : String
  gradSupport : Bool
  hasNewStateFn : Bool
  deriving DecidableEq

/-- `init_keys[i].rsplit("/", 1)[-1]`: the name after the last `/`, the
whole string when there is none (written over the character list so that
it evaluates by kernel reduction). -/
def unscopedName (s : String) : String :=
  String.mk ((s.data.reverse.takeWhile (fun c => c ≠ '/')).reverse)

/-- `var` of one `(var, sampler)` entry of the `sampler_methods` argument:
a single name or a list/tuple of names. -/
inductive VarSpec where
  | single : String → VarSpec
  | many : List String → VarSpec
  deriving DecidableEq

/-- Python `dict` lookup (modelled on an insertion-ordered association
list built by `dictInsert`). -/
def dictGet (d : List (String × SamplerClassInfo)) (k : String) :
    Option SamplerClassInfo :=
  match d with
  | [] => none
  | (k', v) :: rest => if k' = k then some v else dictGet rest k

/-- Python `dict` insert: overwrite the existing binding, else append. -/
def dictInsert (d : List (String × SamplerClassInfo)) (k : String)
    (v : SamplerClassInfo) : List (String × SamplerClassInfo) :=
  match d with
  | [] => [(k, v)]
  | (k', v') :: rest =>
    if k' = k then (k, v) :: rest else (k', v') :: dictInsert rest k v

/-- `CompoundStep._convert_sampler_methods` (samplers.py 308-317): flatten
the `(var, sampler)` pairs into a name-to-sampler dict, list/tuple vars
entry by entry. -/
def convert_sampler_methods (sm : List (VarSpec × SamplerClassInfo)) :
    List (String × SamplerClassInfo) :=
  sm.foldl
    (fun d p =>
      match p.1 with
      | .single v => dictInsert d v p.2
      | .many vs => vs.foldl (fun d v => dictInsert d v p.2) d)
    []

/-- The loop of `_assign_default_methods` (samplers.py 336-383) over the
variables, carrying the enumeration index `i`, the accumulating
`make_kernel_fn` (each entry recorded by the sampler class whose
`_default_kernel_maker()` was appended), `part_kernel_kwargs` (each dict
recorded by its key names), and the counters `rwm_len`, `nuts_len`.

In the explicit branch the source appends `{}` to `part_kernel_kwargs`
and then assigns `part_kernel_kwargs[i]["new_state_fn"]` when the
distribution's `_default_new_state_part` is callable — an `IndexError`
when `i` is out of range of the accumulated list; it then checks the
gradient-support mismatch (`ValueError`), appends the kernel maker, and
runs the two `__name__` tests, of which the second raises
`NotImplementedError` in its `else` branch (so whenever the explicit
sampler is not `RandomWalkM`). -/
def assignLoop (smd : List (String × SamplerClassInfo)) :
    List VarInfo → Nat → List SamplerClassInfo → List (List String) → Nat → Nat →
    Except PyErr (List SamplerClassInfo × List (List String) × Nat × Nat)
  | [], _, mk, pk, rwm, nuts => .ok (mk, pk, rwm, nuts)
  | v :: rest, i, mk, pk, rwm, nuts =>
    match dictGet smd (unscopedName v.key) with
    | some sampler =>
      let pk1 := pk ++ [[]]
      if v.hasNewStateFn = true ∧ pk1.length ≤ i then .error .indexError
      else
        let pk2 := if v.hasNewStateFn then pk1.set i (pk1.getD i [] ++ ["new_state_fn"]) else pk1
        if v.gradSupport = false ∧ sampler.grad = true then
          .error (.valueError ("The `" ++ unscopedName v.key ++ "` doesn't support gradient, please provide an appropriate sampler method"))
        else
          let mk1 := mk ++ [sampler]
          let nuts1 := if sampler.pyName = "NUTS" then nuts + 1 else nuts
          if sampler.pyName = "RandomWalkM" then
            assignLoop smd rest (i + 1) mk1 pk2 (rwm + 1) nuts1
          else .error .notImplementedError
    | none =>
      if v.gradSupport then
        if nuts = 0 then
          assignLoop smd rest (i + 1) (mk ++ [NUTSinfo]) (pk ++ [[]]) rwm (nuts + 1)
        else assignLoop smd rest (i + 1) mk pk rwm (nuts + 1)
      else
        if rwm = 0 then
          assignLoop smd rest (i + 1) (mk ++ [RandomWalkMinfo]) (pk ++ [[]]) (rwm + 1) nuts
        else assignLoop smd rest (i + 1) mk pk (rwm + 1) nuts

/-- `CompoundStep._assign_default_methods` (samplers.py 319-389): convert
the optional explicit mapping (a `None` mapping behaves like an absent
one, as does an empty dict under Python truthiness), run the assignment
loop, then store `make_kernel_fn`, the per-part `kernel_kwargs`, and
`li = [i for i in [rwm_len, nuts_len] if i != 0]`. -/
def assign_default_methods (sm : Option (List (VarSpec × SamplerClassInfo)))
    (vars : List VarInfo) :
    Except PyErr (List SamplerClassInfo × List (List String) × List Nat) :=
  let smd := match sm with
    | none => []
    | some l => convert_sampler_methods l
  match assignLoop smd vars 0 [] [] 0 0 with
  | .error e => .error e
  | .ok (mk, pk, rwm, nuts) => .ok (mk, pk, [rwm, nuts].filter (· ≠ 0))

/-! ## Tensors

A TensorFlow tensor is modelled as a nested list of rational scalars.
`tf.shape` reads the length along each axis following the leading
entries; `ndim` is the rank, `tfExpandDims0` is `tf.expand_dims(t, 0)`,
and `tfTile` is `tf.tile` (repeat the entries along each axis by the
corresponding multiple). -/

inductive Tensor where
  | scalar : ℚ → Tensor
  | arr : List Tensor → Tensor

instance : Inhabited Tensor := ⟨.scalar 0⟩

/-- `tensor.ndim`: the rank. -/
def Tensor.ndim : Tensor → Nat
  | .scalar _ => 0
  | .arr [] => 1
  | .arr (t :: _) => 1 + t.ndim

/-- `tf.shape`: the dimension list. -/
def tfShape : Tensor → List Nat
  | .scalar _ => []
  | .arr [] => [0]
  | .arr (t :: ts) => (ts.length + 1) :: tfShape t

/-- `tf.expand_dims(t, 0)`: a new leading axis of length 1. -/
def tfExpandDims0 (t : Tensor) : Tensor := .arr [t]

mutual

/-- `tf.tile(t, multiples)`: along each axis, the entries repeated
`multiples[axis]` times. -/
def tfTile : Tensor → List Nat → Tensor
  | t, [] => t
  | .scalar x, _ :: _ => .scalar x
  | .arr ts, m :: ms => .arr (List.flatten (List.replicate m (tfTileList ts ms)))

def tfTileList : List Tensor → List Nat → List Tensor
  | [], _ => []
  | t :: ts, ms => tfTile t ms :: tfTileList ts ms

end

/-- A tensor of shape `shape` filled with `v` (the shape contract of an
external TFP `sample(sample_shape=shape)` call). -/
def fullTensor : List Nat → ℚ → Tensor
  | [], v => .scalar v
  | n :: ns, v => .arr (List.replicate n (fullTensor ns v))

mutual

/-- Elementwise unary tensor op (TF broadcasting of `+= delta`, `% 2`,
`tf.round` over every entry). -/
def tmap (f : ℚ → ℚ) : Tensor → Tensor
  | .scalar x => .scalar (f x)
  | .arr ts => .arr (tmapList f ts)

def tmapList (f : ℚ → ℚ) : List Tensor → List Tensor
  | [] => []
  | t :: ts => tmap f t :: tmapList f ts

end

mutual

/-- Elementwise binary tensor op on same-shaped tensors (used for
`state_part += delta`).  On a constructor mismatch, impossible for
equal shapes, the left tensor is kept. -/
def tmap2 (f : ℚ → ℚ → ℚ) : Tensor → Tensor → Tensor
  | .scalar a, .scalar b => .scalar (f a b)
  | .scalar a, .arr _ => .scalar a
  | .arr ts, .scalar _ => .arr ts
  | .arr ts, .arr us => .arr (tmap2List f ts us)

def tmap2List (f : ℚ → ℚ → ℚ) : List Tensor → List Tensor → List Tensor
  | t :: ts, u :: us => tmap2 f t u :: tmap2List f ts us
  | _, _ => []

end

/-- `tile_init` (samplers.py 486-487): for each initial-state tensor,
`tf.tile(tf.expand_dims(tens, 0), [num_repeats] + [1] * tens.ndim)`. -/
def tile_init (init : List Tensor) (numRepeats : Nat) : List Tensor :=
  init.map (fun tens => tfTile (tfExpandDims0 tens) (numRepeats :: List.replicate tens.ndim 1))

/-- Leading-axis length of a tensor (observation helper for the
round-trip statement). -/
def leadingLen : Tensor → Nat
  | .scalar _ => 0
  | .arr ts => ts.length

/-- Slice `t[j]` along the leading axis (observation helper). -/
def sliceAt : Tensor → Nat → Tensor
  | .scalar x, _ => .scalar x
  | .arr ts, j => ts.getD j default

/-! ## Log-probability builders (`samplers.py` 394-475, `smc.py` 91-145)

The state initializers (`initialize_sampling_state`,
`initialize_sampling_state_smc`, from `pymc4.mcmc.utils` /
`pymc4.inference.utils`, outside this repository's core files) evaluate
the model once; their outputs enter the embedding as arguments.  The
closures `logpfn` / `deterministics_callback` / `logpfn_prior` /
`logpfn_likelihood` delegate to the external `flow` evaluator, so a
built closure is recorded by what the source fixes about it: the
unobserved keys it captures and, for `logpfn`, whether it collects the
reduced or the unreduced log-probability. -/

/-- The output of an external state-initializer call. -/
structure SamplingStateModel where
  allUnobservedValues : List (String × Tensor)
  observedValues : List (String × Tensor)

/-- Which log-probability a built `logpfn` closure collects
(`collect_log_prob` vs `collect_unreduced_log_prob`). -/
inductive LogpKind where
  | reduced : LogpKind
  | unreduced : LogpKind
  deriving DecidableEq

/-- What `build_logp_and_deterministic_functions` returns once every
check has passed: the `logpfn` closure (by its kind and captured keys),
the `init` dict of unobserved values, the deterministic names, and the
state. -/
structure BuildResult where
  logpfnKind : LogpKind
  unobservedKeys : List String
  init : List (String × Tensor)
  deterministicNames : List String
  state : SamplingStateModel

/-- `build_logp_and_deterministic_functions` (samplers.py 394-475): the
model-type check, the `state`/`observed` mutual-exclusion check, the
external `initialize_sampling_state` call (its output is the argument
`initState`, `detNames`), the no-unobserved-values check, then the
closures. -/
def build_logp_and_deterministic_functions (isModel : Bool)
    (stateArg : Option SamplingStateModel) (observedArg : Option (List (String × Tensor)))
    (initState : SamplingStateModel) (detNames : List String)
    (collectReducedLogProb : Bool) : Except PyErr BuildResult :=
  if isModel = false then .error .typeError
  else if stateArg.isSome ∧ observedArg.isSome then
    .error (.valueError ("Can't use both `state` and `observed` arguments"))
  else if initState.allUnobservedValues.isEmpty then
    .error (.valueError ("Can not calculate a log probability: the model has no unobserved values."))
  else
    .ok { logpfnKind := if collectReducedLogProb then .reduced else .unreduced
          unobservedKeys := initState.allUnobservedValues.map Prod.fst
          init := initState.allUnobservedValues
          deterministicNames := detNames
          state := initState }

/-- The head of `_BaseSampler.sample` (samplers.py 54-84): the
`state`/`observed` mutual-exclusion check, then the call to
`build_logp_and_deterministic_functions` (the model was validated at
construction, so `isModel = true` there).  The vectorization, tiling and
chain run that follow operate on the build result and are outside the
claims settled here. -/
def sampleMethod (stateArg : Option SamplingStateModel)
    (observedArg : Option (List (String × Tensor)))
    (initState : SamplingStateModel) (detNames : List String)
    (useAutoBatching : Bool) : Except PyErr BuildResult :=
  if stateArg.isSome ∧ observedArg.isSome then
    .error (.valueError ("Can't use both `state` and `observed` arguments"))
  else
    build_logp_and_deterministic_functions true stateArg observedArg initState detNames
      useAutoBatching

/-- What `_build_logp_smc` returns once every check has passed: the two
closures are recorded by their shared captured keys (`logpfn_prior` and
`logpfn_likelihood` differ only in the `is_prior` flag handed to the
external evaluator), with the `init` dict and the state. -/
structure SmcBuildResult where
  unobservedKeys : List String
  init : List (String × Tensor)
  state : SamplingStateModel

/-- `_build_logp_smc` (smc.py 91-145): the model-type check, the
`state`/`observed` mutual-exclusion check, the external
`initialize_sampling_state_smc` call (its output is `initState`,
`lkhN`, `priorN`), the both-contributions-non-empty check, the
no-unobserved-values check, then the prior and likelihood closures. -/
def build_logp_smc (isModel : Bool) (stateArg : Option SamplingStateModel)
    (observedArg : Option (List (String × Tensor)))
    (initState : SamplingStateModel) (lkhN priorN : Nat) :
    Except PyErr SmcBuildResult :=
  if isModel = false then .error .typeError
  else if stateArg.isSome ∧ observedArg.isSome then
    .error (.valueError ("Can't use both `state` and `observed` arguments"))
  else if lkhN = 0 ∨ priorN = 0 then
    .error (.valueError ("Can not run SMC: the model should contain both likelihood and prior"))
  else if initState.allUnobservedValues.isEmpty then
    .error (.valueError ("Can not calculate a log probability: the model has no unobserved values."))
  else
    .ok { unobservedKeys := initState.allUnobservedValues.map Prod.fst
          init := initState.allUnobservedValues
          state := initState }

/-- The head of `sample_smc` (smc.py 18-62): it first calls
`_build_logp_smc`, so any error raised there aborts the call before the
replica tiling, vectorization and SMC run (which operate on the build
result and are external TFP machinery). -/
def sample_smc (isModel : Bool) (stateArg : Option SamplingStateModel)
    (observedArg : Option (List (String × Tensor)))
    (initState : SamplingStateModel) (lkhN priorN : Nat) :
    Except PyErr SmcBuildResult :=
  build_logp_smc isModel stateArg observedArg initState lkhN priorN

/-! ## Proposal factories (`state_functions.py`)

Each factory takes a `scale` (a scalar `Tensor` or a Python list of
scalars, distinguished by `mcmc_util.is_list_like`) and returns a
callable over `(state_parts, seed)`.  The external TFP samplers
(`tfd.Categorical/.Bernoulli/.Normal/.Poisson(...).sample(seed=seed,
sample_shape=tf.shape(state_part))`) are modelled from the spec: the
spec fixes their output to be a tensor of shape `sample_shape` drawn
from the named distribution, so each is a deterministic fill of that
shape whose value depends on the distribution parameters and the
seed. -/

/-- The `scale` argument: a scalar or a list (`mcmc_util.is_list_like`). -/
inductive ScaleArg where
  | scalar : ℚ → ScaleArg
  | list : List ℚ → ScaleArg

/-- Modelled from the spec: `tfd.Categorical(probs=probs).sample(seed=seed,
sample_shape=shape)` is external TFP code; it returns a tensor of shape
`shape`, modelled as a deterministic fill from `probs` and `seed`. -/
def tfdCategoricalSample (probs : List ℚ) (shape : List Nat) (seed : Nat) : Tensor :=
  fullTensor shape (probs.foldl (· + ·) 0 + (seed : ℚ))

/-- Modelled from the spec: `tfd.Bernoulli(probs=p).sample(seed=seed,
sample_shape=shape)`, a deterministic fill from `p` and `seed`. -/
def tfdBernoulliSample (p : ℚ) (shape : List Nat) (seed : Nat) : Tensor :=
  fullTensor shape (p + (seed : ℚ))

/-- Modelled from the spec: `tfd.Normal(loc, scale).sample(seed=seed,
sample_shape=shape)`, a deterministic fill from `loc`, `scale`, `seed`. -/
def tfdNormalSample (loc scale : ℚ) (shape : List Nat) (seed : Nat) : Tensor :=
  fullTensor shape (loc + scale + (seed : ℚ))

/-- Modelled from the spec: `tfd.Poisson(rate).sample(seed=seed,
sample_shape=shape)`, a deterministic fill from `rate` and `seed`. -/
def tfdPoissonSample (rate : ℚ) (shape : List Nat) (seed : Nat) : Tensor :=
  fullTensor shape (rate + (seed : ℚ))

/-- Python `x % 2` on the entries (Bernoulli proposal wrap-around):
`x - 2 * floor (x / 2)`. -/
def pymod2 (x : ℚ) : ℚ := x - 2 * ⌊x / 2⌋

/-- `tf.round` on an entry.  (TF rounds half to even; the claims below do
not depend on the tie-breaking rule, so the ambient `round` is used.) -/
def tfRound (x : ℚ) : ℚ := (round x : ℤ)

/-- `categorical_uniform_fn(event_shape, scale)._fn(state_parts, seed)`
(state_functions.py 10-41): normalize `scale` to a list, expand a
single-element list by `scales *= len(state_parts)`, raise when the
lengths disagree, else sample one categorical delta per state part with
`probs=[0.5] * event_shape` and `sample_shape=tf.shape(state_part)`
(the zipped `scale_part` is unused by the sampled delta). -/
def categorical_uniform_fn (eventShape : Nat) (scale : ScaleArg)
    (stateParts : List Tensor) (seed : Nat) : Except PyErr (List Tensor) :=
  let scales := match scale with
    | .scalar s => [s]
    | .list l => l
  let scales := if scales.length = 1 then
      List.flatten (List.replicate stateParts.length scales)
    else scales
  if stateParts.length ≠ scales.length then
    .error (.valueError ("`scale` must broadcast with `state_parts`"))
  else
    .ok ((List.zip scales stateParts).map (fun p =>
      tfdCategoricalSample (List.replicate eventShape ((1 : ℚ) / 2)) (tfShape p.2) seed))

/-- `bernoulli_fn(scale)._fn(state_parts, seed)` (state_functions.py
44-82): same scale normalization and length check; per part,
`delta = Bernoulli(probs=0.5 * scale_part).sample(...)`,
`state_part += delta`, `state_part %= 2`. -/
def bernoulli_fn (scale : ScaleArg) (stateParts : List Tensor) (seed : Nat) :
    Except PyErr (List Tensor) :=
  let scales := match scale with
    | .scalar s => [s]
    | .list l => l
  let scales := if scales.length = 1 then
      List.flatten (List.replicate stateParts.length scales)
    else scales
  if stateParts.length ≠ scales.length then
    .error (.valueError ("`scale` must broadcast with `state_parts`"))
  else
    .ok ((List.zip scales stateParts).map (fun p =>
      let delta := tfdBernoulliSample ((1 : ℚ) / 2 * p.1) (tfShape p.2) seed
      tmap pymod2 (tmap2 (· + ·) p.2 delta)))

/-- `gaussian_round_fn(scale)._fn(state_parts, seed)` (state_functions.py
85-122): same scale normalization and length check; per part,
`delta = Normal(0.0, scale_part * 1.0).sample(...)`,
`state_part += delta`, then `tf.round(state_part)`. -/
def gaussian_round_fn (scale : ScaleArg) (stateParts : List Tensor) (seed : Nat) :
    Except PyErr (List Tensor) :=
  let scales := match scale with
    | .scalar s => [s]
    | .list l => l
  let scales := if scales.length = 1 then
      List.flatten (List.replicate stateParts.length scales)
    else scales
  if stateParts.length ≠ scales.length then
    .error (.valueError ("`scale` must broadcast with `state_parts`"))
  else
    .ok ((List.zip scales stateParts).map (fun p =>
      let delta := tfdNormalSample 0 (p.1 * 1) (tfShape p.2) seed
      tmap tfRound (tmap2 (· + ·) p.2 delta)))

/-- `poisson_fn(scale)._fn(state_parts, seed)` (state_functions.py
124-160): same scale normalization and length check; per part the
proposal is `Poisson(scale_part * 1.0).sample(...)` itself. -/
def poisson_fn (scale : ScaleArg) (stateParts : List Tensor) (seed : Nat) :
    Except PyErr (List Tensor) :=
  let scales := match scale with
    | .scalar s => [s]
    | .list l => l
  let scales := if scales.length = 1 then
      List.flatten (List.replicate stateParts.length scales)
    else scales
  if stateParts.length ≠ scales.length then
    .error (.valueError ("`scale` must broadcast with `state_parts`"))
  else
    .ok ((List.zip scales stateParts).map (fun p =>
      tfdPoissonSample (p.1 * 1) (tfShape p.2) seed))

/-- The condition under which a factory accepts `scale` against
`state_parts` (the claims' notion of a valid scale): a scalar always, a
list when its length is `1` or the number of state parts. -/
def scaleOk (scale : ScaleArg) (stateParts : List Tensor) : Prop :=
  match scale with
  | .scalar _ => True
  | .list l => l.length = 1 ∨ l.length = stateParts.length

instance (scale : ScaleArg) (sp : List Tensor) : Decidable (scaleOk scale sp) := by
  unfold scaleOk
  cases scale <;> infer_instance

/-! ## Helper lemmas -/

/-- The truthiness test of `_check_arguments` holds exactly when some user
kwarg name lies in two of the three accepted-parameter sets. -/
lemma ambiguity_iff (aK kK cK kw : Finset String) :
    ((aK ∩ kw) ∩ (kK ∩ kw) ≠ ∅ ∨ (aK ∩ kw) ∩ (cK ∩ kw) ≠ ∅ ∨
      (kK ∩ kw) ∩ (cK ∩ kw) ≠ ∅) ↔
    ∃ k ∈ kw, (k ∈ aK ∧ k ∈ kK) ∨ (k ∈ aK ∧ k ∈ cK) ∨ (k ∈ kK ∧ k ∈ cK) := by
  simp only [← Finset.nonempty_iff_ne_empty, Finset.Nonempty, Finset.mem_inter]
  constructor
  · rintro (⟨k, ⟨hA, hW⟩, hB, _⟩ | ⟨k, ⟨hA, hW⟩, hB, _⟩ | ⟨k, ⟨hA, hW⟩, hB, _⟩)
    exacts [⟨k, hW, Or.inl ⟨hA, hB⟩⟩, ⟨k, hW, Or.inr (Or.inl ⟨hA, hB⟩)⟩,
      ⟨k, hW, Or.inr (Or.inr ⟨hA, hB⟩)⟩]
  · rintro ⟨k, hW, ⟨h1, h2⟩ | ⟨h1, h2⟩ | ⟨h1, h2⟩⟩
    exacts [Or.inl ⟨k, ⟨h1, hW⟩, h2, hW⟩, Or.inr (Or.inl ⟨k, ⟨h1, hW⟩, h2, hW⟩),
      Or.inr (Or.inr ⟨k, ⟨h1, hW⟩, h2, hW⟩)]

/-- `check_arguments` on a satisfied ambiguity test. -/
lemma check_arguments_error {A B C : Finset String}
    (h : A ∩ B ≠ ∅ ∨ A ∩ C ≠ ∅ ∨ B ∩ C ≠ ∅) :
    check_arguments A B C =
      .error (.valueError ("Ambiguity in setting kwargs for `kernel`, `adaptation_kernel`, `chain_sampler`")) := by
  unfold check_arguments
  rw [if_pos h]

/-- `check_arguments` on a failed ambiguity test. -/
lemma check_arguments_okay {A B C : Finset String}
    (h : ¬(A ∩ B ≠ ∅ ∨ A ∩ C ≠ ∅ ∨ B ∩ C ≠ ∅)) :
    check_arguments A B C = .ok () := by
  unfold check_arguments
  rw [if_neg h]

/-- The guard of `_check_kwargs` compares the size of an intersection with
the size of one of its factors, so it can never hold: `_check_kwargs`
always falls through without raising. -/
lemma check_kwargs_ok (pairs : List (Option (Finset String) × Finset String)) :
    check_kwargs pairs = .ok () := by
  induction pairs with
  | nil => rfl
  | cons p rest ih =>
    obtain ⟨c, o⟩ := p
    cases c with
    | none => simpa [check_kwargs] using ih
    | some classKeys =>
      rw [check_kwargs, if_neg (Nat.not_lt.mpr (Finset.card_le_card Finset.inter_subset_left))]
      exact ih

/-! ## Claims -/

/-- C1: for every sampler class (any gradient flag, any adaptation
binding, any accepted-parameter sets) and every user kwarg set, if some
kwarg name is accepted by two or more of the three targets then
construction raises `ValueError` at `_check_arguments` (before any
sampling work); otherwise construction succeeds with each kwarg placed in
exactly those partitions whose accepted set contains its name. -/
theorem claim_C1_kwarg_partition (grad hasAdaptation : Bool)
    (aK kK cK kw : Finset String) :
    ((∃ k ∈ kw, (k ∈ aK ∧ k ∈ kK) ∨ (k ∈ aK ∧ k ∈ cK) ∨ (k ∈ kK ∧ k ∈ cK)) →
      samplerInit true grad [] hasAdaptation aK kK cK kw =
        .error (.valueError ("Ambiguity in setting kwargs for `kernel`, `adaptation_kernel`, `chain_sampler`"))) ∧
    ((¬ ∃ k ∈ kw, (k ∈ aK ∧ k ∈ kK) ∨ (k ∈ aK ∧ k ∈ cK) ∨ (k ∈ kK ∧ k ∈ cK)) →
      samplerInit true grad [] hasAdaptation aK kK cK kw = .ok (aK ∩ kw, kK ∩ kw, cK ∩ kw) ∧
      ∀ k ∈ kw, (k ∈ aK ∩ kw ↔ k ∈ aK) ∧ (k ∈ kK ∩ kw ↔ k ∈ kK) ∧ (k ∈ cK ∩ kw ↔ k ∈ cK)) := by
  constructor
  · intro hP
    have hC := (ambiguity_iff aK kK cK kw).mpr hP
    simp [samplerInit, assign_arguments, check_arguments_error hC]
  · intro hP
    have hC := (not_congr (ambiguity_iff aK kK cK kw)).mpr hP
    refine ⟨?_, ?_⟩
    · simp [samplerInit, assign_arguments, check_arguments_okay hC, check_kwargs_ok]
    · intro k hk
      simp [Finset.mem_inter, hk]

/-- C1 witness: with accepted sets `{a, x}`, `{b, x}`, `{c}`, the kwarg
set `{x}` is ambiguous and raises, while `{a, c}` is partitioned by
membership. -/
theorem claim_C1_kwarg_partition_witness :
    samplerInit true true [] true ({"a", "x"}) ({"b", "x"}) ({"c"}) ({"x"}) =
      .error (.valueError ("Ambiguity in setting kwargs for `kernel`, `adaptation_kernel`, `chain_sampler`")) ∧
    samplerInit true true [] true ({"a", "x"}) ({"b", "x"}) ({"c"}) ({"a", "c"}) =
      .ok ({"a", "x"} ∩ {"a", "c"}, {"b", "x"} ∩ {"a", "c"}, {"c"} ∩ {"a", "c"}) := by
  constructor
  · exact (claim_C1_kwarg_partition true true {"a", "x"} {"b", "x"} {"c"} {"x"}).1
      ⟨"x", by decide, Or.inl (by decide)⟩
  · exact ((claim_C1_kwarg_partition true true {"a", "x"} {"b", "x"} {"c"} {"a", "c"}).2
      (by decide)).1

/-- C4 (code bug): constructing a sampler with a kwarg name accepted by
none of the three targets does not raise: the name is dropped from every
partition and `__init__` succeeds, because `_check_kwargs`'s guard
`len(class_keys & object_kwargs.keys()) > len(class_keys)` can never
hold.  Evaluated here at a concrete failing input: accepted sets
`{num_adaptation_steps}`, `{step_size}`, `{num_results}` and the unknown
kwarg `{foo}`. -/
theorem claim_C4_unknown_kwarg_silently_ignored :
    samplerInit true false [] true ({"num_adaptation_steps"}) ({"step_size"})
        ({"num_results"}) ({"foo"}) =
      .ok ({"num_adaptation_steps"} ∩ {"foo"}, {"step_size"} ∩ {"foo"},
        {"num_results"} ∩ {"foo"}) ∧
    ("foo" : String) ∉ ({"num_adaptation_steps"} : Finset String) ∩ {"foo"} ∧
    ("foo" : String) ∉ ({"step_size"} : Finset String) ∩ {"foo"} ∧
    ("foo" : String) ∉ ({"num_results"} : Finset String) ∩ {"foo"} := by
  refine ⟨?_, by decide, by decide, by decide⟩
  exact ((claim_C1_kwarg_partition false true {"num_adaptation_steps"} {"step_size"}
    {"num_results"} {"foo"}).2 (by decide)).1

/-- C5: each gradient-based sampler class (`HMC`, `HMCSimple`, `NUTS`,
`NUTSSimple`, all with `_grad = True`) raises `ValueError` in
`_BaseSampler.__init__` as soon as the model has at least one discrete
unobserved variable, before the kwarg machinery and before any
sampling. -/
theorem claim_C5_discrete_gradient_mismatch (d : String) (ds : List String)
    (hasAd : Bool) (aK kK cK kw : Finset String) :
    samplerInit true HMCinfo.grad (d :: ds) hasAd aK kK cK kw =
      .error (.valueError ("Discrete distributions can't be used with gradient-based sampler")) ∧
    samplerInit true HMCSimpleInfo.grad (d :: ds) hasAd aK kK cK kw =
      .error (.valueError ("Discrete distributions can't be used with gradient-based sampler")) ∧
    samplerInit true NUTSinfo.grad (d :: ds) hasAd aK kK cK kw =
      .error (.valueError ("Discrete distributions can't be used with gradient-based sampler")) ∧
    samplerInit true NUTSSimpleInfo.grad (d :: ds) hasAd aK kK cK kw =
      .error (.valueError ("Discrete distributions can't be used with gradient-based sampler")) := by
  refine ⟨?_, ?_, ?_, ?_⟩ <;>
    simp [samplerInit, HMCinfo, HMCSimpleInfo, NUTSinfo, NUTSSimpleInfo]

/-- C2 (amended): with one gradient-supporting and one non-gradient
unobserved variable and no explicit mapping, compound assignment gives
the gradient variable the NUTS sub-kernel and the non-gradient variable
the RandomWalkM sub-kernel (in either declaration order); and an
explicit mapping that maps only the non-gradient variable to a
gradient-requiring sampler raises `ValueError`.  (The original claim's
unrestricted mapping clause fails, see the counterexample: a mapping that
also covers the gradient variable can end in `NotImplementedError`
first.) -/
theorem claim_C2_compound_assignment (g n : VarInfo) (s : SamplerClassInfo)
    (hg : g.gradSupport = true) (hn : n.gradSupport = false)
    (hs : s.grad = true) (hname : unscopedName g.key ≠ unscopedName n.key) :
    (assign_default_methods none [g, n] =
        .ok ([NUTSinfo, RandomWalkMinfo], [[], []], [1, 1]) ∧
      assign_default_methods none [n, g] =
        .ok ([RandomWalkMinfo, NUTSinfo], [[], []], [1, 1])) ∧
    (assign_default_methods (some [(.single (unscopedName n.key), s)]) [g, n] =
        .error (.valueError ("The `" ++ unscopedName n.key ++ "` doesn't support gradient, please provide an appropriate sampler method")) ∧
      assign_default_methods (some [(.single (unscopedName n.key), s)]) [n, g] =
        .error (.valueError ("The `" ++ unscopedName n.key ++ "` doesn't support gradient, please provide an appropriate sampler method"))) := by
  refine ⟨⟨?_, ?_⟩, ?_, ?_⟩ <;>
    simp [assign_default_methods, assignLoop, convert_sampler_methods, dictInsert,
      dictGet, hg, hn, hs, Ne.symm hname]

/-- C2 witness: the amended statement at the concrete model
`[model/g (gradient), model/n (no gradient)]` with the explicit sampler
`HMC` (`_grad = True`). -/
theorem claim_C2_compound_assignment_witness :
    (assign_default_methods none [⟨"model/g", true, false⟩, ⟨"model/n", false, false⟩] =
        .ok ([NUTSinfo, RandomWalkMinfo], [[], []], [1, 1]) ∧
      assign_default_methods none [⟨"model/n", false, false⟩, ⟨"model/g", true, false⟩] =
        .ok ([RandomWalkMinfo, NUTSinfo], [[], []], [1, 1])) ∧
    (assign_default_methods (some [(.single (unscopedName "model/n"), HMCinfo)])
          [⟨"model/g", true, false⟩, ⟨"model/n", false, false⟩] =
        .error (.valueError ("The `" ++ unscopedName "model/n" ++ "` doesn't support gradient, please provide an appropriate sampler method")) ∧
      assign_default_methods (some [(.single (unscopedName "model/n"), HMCinfo)])
          [⟨"model/n", false, false⟩, ⟨"model/g", true, false⟩] =
        .error (.valueError ("The `" ++ unscopedName "model/n" ++ "` doesn't support gradient, please provide an appropriate sampler method"))) :=
  claim_C2_compound_assignment ⟨"model/g", true, false⟩ ⟨"model/n", false, false⟩
    HMCinfo rfl rfl rfl (by decide)

/-- C2 counterexample: the claim as stated quantifies over every explicit
mapping that assigns a gradient-requiring sampler to the non-gradient
variable.  The mapping `{g: NUTS, n: HMC}` does (HMC requires gradients
and `model/n` has none), yet assignment raises `NotImplementedError` at
`g` — the `__name__` dispatch's `else` branch — and no `ValueError` is
ever reached. -/
theorem claim_C2_compound_assignment_counterexample :
    assign_default_methods
        (some [(.single ("g"), NUTSinfo), (.single ("n"), HMCinfo)])
        [⟨"model/g", true, false⟩, ⟨"model/n", false, false⟩] =
      .error .notImplementedError ∧
    ∀ msg, assign_default_methods
        (some [(.single ("g"), NUTSinfo), (.single ("n"), HMCinfo)])
        [⟨"model/g", true, false⟩, ⟨"model/n", false, false⟩] ≠
      .error (.valueError msg) := by
  have h : assign_default_methods
      (some [(.single ("g"), NUTSinfo), (.single ("n"), HMCinfo)])
      [⟨"model/g", true, false⟩, ⟨"model/n", false, false⟩] =
      .error .notImplementedError := by rfl
  refine ⟨h, ?_⟩
  intro msg hmsg
  rw [h] at hmsg
  simp at hmsg

/-- C3 (code bug): the claim says an explicitly requested `NUTS`
sub-kernel on a gradient-supporting variable is accepted and assignment
completes; in the code the `__name__` dispatch

    if sampler.__name__ == "NUTS": nuts_len += 1
    if sampler.__name__ == "RandomWalkM": rwm_len += 1
    else: raise NotImplementedError

raises `NotImplementedError` for every explicit sampler other than
`RandomWalkM`, `NUTS` included.  Evaluated at the failing input: one
gradient-supporting variable `model/x` explicitly mapped to `NUTS`.
(`RandomWalkM` on a non-gradient variable is accepted, as the claim
says.) -/
theorem claim_C3_explicit_nuts_not_implemented :
    assign_default_methods (some [(.single ("x"), NUTSinfo)])
        [⟨"model/x", true, false⟩] =
      .error .notImplementedError ∧
    assign_default_methods (some [(.single ("x"), RandomWalkMinfo)])
        [⟨"model/x", false, false⟩] =
      .ok ([RandomWalkMinfo], [[]], [1, 0].filter (· ≠ 0)) := by
  exact ⟨rfl, rfl⟩

/-- C6: calling `sample` with both `state` and `observed` non-null raises
`ValueError` at once — in `_BaseSampler.sample`, again in
`build_logp_and_deterministic_functions`, in `_build_logp_smc` and hence
in `sample_smc` — before any log-probability closure is built (the error
is returned by the mutual-exclusion check, ahead of the closure
construction in each builder). -/
theorem claim_C6_state_observed_exclusive (s : SamplingStateModel)
    (o : List (String × Tensor)) (st : SamplingStateModel) (dn : List String)
    (uab : Bool) (lkhN priorN : Nat) :
    sampleMethod (some s) (some o) st dn uab =
      .error (.valueError ("Can't use both `state` and `observed` arguments")) ∧
    build_logp_and_deterministic_functions true (some s) (some o) st dn uab =
      .error (.valueError ("Can't use both `state` and `observed` arguments")) ∧
    build_logp_smc true (some s) (some o) st lkhN priorN =
      .error (.valueError ("Can't use both `state` and `observed` arguments")) ∧
    sample_smc true (some s) (some o) st lkhN priorN =
      .error (.valueError ("Can't use both `state` and `observed` arguments")) := by
  refine ⟨?_, ?_, ?_, ?_⟩ <;>
    simp [sampleMethod, build_logp_and_deterministic_functions, build_logp_smc, sample_smc]

/-- C7: `_build_logp_smc` (and so `sample_smc`) raises `ValueError` as
soon as the model's likelihood contribution count or prior contribution
count is zero, before either log-probability closure is constructed (the
error is returned ahead of the closure construction; the `state`/
`observed` arguments are not both supplied, else their own check fires
first). -/
theorem claim_C7_smc_needs_prior_and_likelihood
    (stateArg : Option SamplingStateModel) (observedArg : Option (List (String × Tensor)))
    (st : SamplingStateModel) (lkhN priorN : Nat)
    (hargs : stateArg = none ∨ observedArg = none)
    (hmiss : lkhN = 0 ∨ priorN = 0) :
    build_logp_smc true stateArg observedArg st lkhN priorN =
      .error (.valueError ("Can not run SMC: the model should contain both likelihood and prior")) ∧
    sample_smc true stateArg observedArg st lkhN priorN =
      .error (.valueError ("Can not run SMC: the model should contain both likelihood and prior")) := by
  have hboth : ¬(stateArg.isSome ∧ observedArg.isSome) := by
    rcases hargs with h | h <;> simp [h]
  constructor <;> simp [build_logp_smc, sample_smc, hboth, hmiss]

/-- C7 witness: a model with unobserved values but no likelihood term
(`lkh_n = 0`, `prior_n = 3`). -/
theorem claim_C7_smc_needs_prior_and_likelihood_witness :
    build_logp_smc true none none ⟨[("x", .scalar 1)], []⟩ 0 3 =
      .error (.valueError ("Can not run SMC: the model should contain both likelihood and prior")) ∧
    sample_smc true none none ⟨[("x", .scalar 1)], []⟩ 0 3 =
      .error (.valueError ("Can not run SMC: the model should contain both likelihood and prior")) :=
  claim_C7_smc_needs_prior_and_likelihood none none ⟨[("x", .scalar 1)], []⟩ 0 3
    (Or.inl rfl) (Or.inl rfl)

/-! ### Tiling lemmas for C8 -/

mutual

/-- Tiling with all-one multiples is the identity. -/
theorem tile_ones : (t : Tensor) → (k : Nat) → tfTile t (List.replicate k 1) = t
  | .scalar _, 0 => by simp [tfTile]
  | .arr _, 0 => by simp [tfTile]
  | .scalar _, _ + 1 => by simp [List.replicate_succ, tfTile]
  | .arr ts, k + 1 => by
    simp [List.replicate_succ, tfTile, tileList_ones ts k]

/-- List version of `tile_ones`. -/
theorem tileList_ones : (ts : List Tensor) → (k : Nat) →
    tfTileList ts (List.replicate k 1) = ts
  | [], _ => rfl
  | t :: ts, k => by
    rw [tfTileList, tile_ones t k, tileList_ones ts k]

end

lemma flatten_replicate_singleton {α : Type} (n : Nat) (x : α) :
    List.flatten (List.replicate n [x]) = List.replicate n x := by
  induction n with
  | zero => rfl
  | succ n ih => simp [List.replicate_succ, ih]

/-- `tf.tile(tf.expand_dims(t, 0), [n] + [1] * k)` stacks `n` copies of
`t` along a new leading axis. -/
lemma tile_expand (t : Tensor) (n k : Nat) :
    tfTile (tfExpandDims0 t) (n :: List.replicate k 1) = .arr (List.replicate n t) := by
  show tfTile (.arr [t]) _ = _
  rw [tfTile, tfTileList, tfTileList, tile_ones t k, flatten_replicate_singleton]

/-- C8: `tile_init` keeps the list length; each output element carries a
new leading axis of length `num_repeats` whose every slice is the
original tensor, and slicing index 0 recovers the original exactly. -/
theorem claim_C8_tile_init_round_trip (init : List Tensor) (n : Nat)
    (hne : init ≠ []) (hn : 0 < n) :
    (tile_init init n).length = init.length ∧
    ∀ i, i < init.length →
      (tile_init init n).getD i default = .arr (List.replicate n (init.getD i default)) ∧
      leadingLen ((tile_init init n).getD i default) = n ∧
      (∀ j, j < n → sliceAt ((tile_init init n).getD i default) j = init.getD i default) ∧
      sliceAt ((tile_init init n).getD i default) 0 = init.getD i default := by
  have hlen : (tile_init init n).length = init.length := by simp [tile_init]
  refine ⟨hlen, ?_⟩
  intro i hi
  have hgd : (tile_init init n).getD i default = .arr (List.replicate n (init.getD i default)) := by
    rw [List.getD_eq_getElem _ _ (by rw [hlen]; exact hi), List.getD_eq_getElem _ _ hi]
    simp only [tile_init, List.getElem_map]
    exact tile_expand _ n _
  refine ⟨hgd, ?_, ?_, ?_⟩
  · rw [hgd]; simp [leadingLen]
  · intro j hj
    rw [hgd]
    simp only [sliceAt]
    rw [List.getD_eq_getElem _ _ (by simpa using hj)]
    exact List.getElem_replicate _ _
  · rw [hgd]
    simp only [sliceAt]
    rw [List.getD_eq_getElem _ _ (by simpa using hn)]
    exact List.getElem_replicate _ _

/-- C8 witness: the round trip at `init = [scalar 3, arr [scalar 1, scalar 2]]`,
`num_repeats = 2`. -/
theorem claim_C8_tile_init_round_trip_witness :
    (tile_init [Tensor.scalar 3, .arr [.scalar 1, .scalar 2]] 2).length =
      ([Tensor.scalar 3, .arr [.scalar 1, .scalar 2]] : List Tensor).length ∧
    ∀ i, i < ([Tensor.scalar 3, .arr [.scalar 1, .scalar 2]] : List Tensor).length →
      (tile_init [Tensor.scalar 3, .arr [.scalar 1, .scalar 2]] 2).getD i default =
        .arr (List.replicate 2 (([Tensor.scalar 3, .arr [.scalar 1, .scalar 2]] : List Tensor).getD i default)) ∧
      leadingLen ((tile_init [Tensor.scalar 3, .arr [.scalar 1, .scalar 2]] 2).getD i default) = 2 ∧
      (∀ j, j < 2 → sliceAt ((tile_init [Tensor.scalar 3, .arr [.scalar 1, .scalar 2]] 2).getD i default) j =
        ([Tensor.scalar 3, .arr [.scalar 1, .scalar 2]] : List Tensor).getD i default) ∧
      sliceAt ((tile_init [Tensor.scalar 3, .arr [.scalar 1, .scalar 2]] 2).getD i default) 0 =
        ([Tensor.scalar 3, .arr [.scalar 1, .scalar 2]] : List Tensor).getD i default :=
  claim_C8_tile_init_round_trip [Tensor.scalar 3, .arr [.scalar 1, .scalar 2]] 2
    (by simp) (by decide)

/-! ### Shape lemmas for the proposal factories -/

lemma tmapList_length (f : ℚ → ℚ) : ∀ ts : List Tensor, (tmapList f ts).length = ts.length
  | [] => by simp [tmapList]
  | _ :: ts => by simp [tmapList, tmapList_length f ts]

/-- `tmap` keeps the shape. -/
theorem tfShape_tmap (f : ℚ → ℚ) : (t : Tensor) → tfShape (tmap f t) = tfShape t
  | .scalar _ => by simp [tmap, tfShape]
  | .arr [] => by simp [tmap, tmapList, tfShape]
  | .arr (t :: ts) => by
    simp [tmap, tmapList, tfShape, tmapList_length, tfShape_tmap f t]

lemma tmap2List_length (f : ℚ → ℚ → ℚ) :
    ∀ ts us : List Tensor, (tmap2List f ts us).length = min ts.length us.length
  | [], us => by simp [tmap2List]
  | _ :: _, [] => by simp [tmap2List]
  | t :: ts, u :: us => by
    simp [tmap2List, tmap2List_length f ts us, Nat.succ_min_succ]

/-- `tmap2` on same-shaped tensors keeps the shape. -/
theorem tfShape_tmap2 (f : ℚ → ℚ → ℚ) :
    (a b : Tensor) → tfShape b = tfShape a → tfShape (tmap2 f a b) = tfShape a
  | .scalar _, .scalar _, _ => by simp [tmap2, tfShape]
  | .scalar _, .arr us, h => by cases us <;> simp [tfShape] at h
  | .arr ts, .scalar _, h => by cases ts <;> simp [tfShape] at h
  | .arr [], .arr [], _ => by simp [tmap2, tmap2List, tfShape]
  | .arr [], .arr (_ :: _), h => by simp [tfShape] at h
  | .arr (_ :: _), .arr [], h => by simp [tfShape] at h
  | .arr (t :: ts), .arr (u :: us), h => by
    simp only [tfShape, List.cons.injEq] at h
    obtain ⟨hlen, hsh⟩ := h
    have hl : us.length = ts.length := by omega
    simp [tmap2, tmap2List, tfShape, tmap2List_length, hl,
      tfShape_tmap2 f t u hsh]

/-- A fill of a tensor's own shape has that shape. -/
theorem tfShape_fullTensor : (t : Tensor) → (v : ℚ) →
    tfShape (fullTensor (tfShape t) v) = tfShape t
  | .scalar _, _ => rfl
  | .arr [], _ => rfl
  | .arr (t :: ts), v => by
    simp [tfShape, fullTensor, List.replicate_succ, tfShape_fullTensor t v]

/-- Mapping a function of the second component over a zip of equal-length
lists is a map over the second list. -/
lemma zip_map_snd_eval {β : Type} (F : ℚ × Tensor → β) (G : Tensor → β)
    (hFG : ∀ x y, F (x, y) = G y) :
    ∀ (b : List Tensor) (a : List ℚ), b.length ≤ a.length →
      (List.zip a b).map F = b.map G
  | [], a, _ => by simp
  | x :: bs, [], h => by simp at h
  | x :: bs, y :: as, h => by
    simp only [List.zip_cons_cons, List.map_cons, hFG]
    rw [zip_map_snd_eval F G hFG bs as (by simpa using h)]

/-- The common body of the four proposal callables: normalize `scale` to
a list, expand a single-element list across the state parts, check the
lengths, then map the per-part generator over the zipped pairs.  Each
factory's callable is definitionally this body at its own generator. -/
def proposalBody (gen : ℚ → Tensor → Tensor) (scale : ScaleArg)
    (stateParts : List Tensor) : Except PyErr (List Tensor) :=
  let scales := match scale with
    | .scalar s => [s]
    | .list l => l
  let scales := if scales.length = 1 then
      List.flatten (List.replicate stateParts.length scales)
    else scales
  if stateParts.length ≠ scales.length then
    .error (.valueError ("`scale` must broadcast with `state_parts`"))
  else
    .ok ((List.zip scales stateParts).map (fun p => gen p.1 p.2))

lemma proposalBody_error (gen : ℚ → Tensor → Tensor) (l : List ℚ)
    (sp : List Tensor) (h1 : l.length ≠ 1) (h2 : l.length ≠ sp.length) :
    proposalBody gen (.list l) sp =
      .error (.valueError ("`scale` must broadcast with `state_parts`")) := by
  simp only [proposalBody]
  rw [if_neg h1, if_pos (Ne.symm h2)]

lemma proposalBody_ok (gen : ℚ → Tensor → Tensor) (scale : ScaleArg)
    (sp : List Tensor) (h : scaleOk scale sp) :
    ∃ scales : List ℚ, scales.length = sp.length ∧
      proposalBody gen scale sp =
        .ok ((List.zip scales sp).map (fun p => gen p.1 p.2)) := by
  cases scale with
  | scalar s =>
    exact ⟨List.replicate sp.length s, by simp,
      by simp [proposalBody, flatten_replicate_singleton]⟩
  | list l =>
    by_cases hl : l.length = 1
    · obtain ⟨s, rfl⟩ := List.length_eq_one.mp hl
      exact ⟨List.replicate sp.length s, by simp,
        by simp [proposalBody, flatten_replicate_singleton]⟩
    · have h2 : l.length = sp.length := (h.resolve_left hl)
      refine ⟨l, h2, ?_⟩
      simp only [proposalBody]
      rw [if_neg hl, if_neg (by omega)]

/-- The scale/state-part contract of one proposal callable, generic in
the per-part generator (which must keep the part's shape). -/
lemma factory_spec (gen : ℚ → Tensor → Tensor)
    (hgen : ∀ sc t, tfShape (gen sc t) = tfShape t)
    (scale : ScaleArg) (sp : List Tensor) (s : ℚ) :
    (∀ l, scale = .list l → l.length ≠ 1 → l.length ≠ sp.length →
      proposalBody gen scale sp =
        .error (.valueError ("`scale` must broadcast with `state_parts`"))) ∧
    (scaleOk scale sp → ∃ out, proposalBody gen scale sp = .ok out ∧
      out.length = sp.length ∧ out.map tfShape = sp.map tfShape) ∧
    proposalBody gen (.scalar s) sp = proposalBody gen (.list [s]) sp := by
  refine ⟨?_, ?_, rfl⟩
  · rintro l rfl h1 h2
    exact proposalBody_error gen l sp h1 h2
  · intro h
    obtain ⟨scales, hlen, heq⟩ := proposalBody_ok gen scale sp h
    refine ⟨_, heq, ?_, ?_⟩
    · simp [List.length_zip, hlen]
    · rw [List.map_map]
      exact zip_map_snd_eval _ (fun t => tfShape t) (fun x y => hgen x y) sp scales hlen.ge

/-- C9: for each of the four proposal factories, the returned callable
expands a scalar or single-element-list `scale` to every state part
(scalar and singleton give identical results), raises `ValueError` when
`scale` is a list whose length is neither `1` nor the number of state
parts, and otherwise returns a proposal list of the same length and
shapes as the state parts. -/
theorem claim_C9_proposal_scale_contract (es : Nat) (scale : ScaleArg)
    (sp : List Tensor) (seed : Nat) (s : ℚ) :
    ((∀ l, scale = .list l → l.length ≠ 1 → l.length ≠ sp.length →
        categorical_uniform_fn es scale sp seed =
          .error (.valueError ("`scale` must broadcast with `state_parts`"))) ∧
      (scaleOk scale sp → ∃ out, categorical_uniform_fn es scale sp seed = .ok out ∧
        out.length = sp.length ∧ out.map tfShape = sp.map tfShape) ∧
      categorical_uniform_fn es (.scalar s) sp seed =
        categorical_uniform_fn es (.list [s]) sp seed) ∧
    ((∀ l, scale = .list l → l.length ≠ 1 → l.length ≠ sp.length →
        bernoulli_fn scale sp seed =
          .error (.valueError ("`scale` must broadcast with `state_parts`"))) ∧
      (scaleOk scale sp → ∃ out, bernoulli_fn scale sp seed = .ok out ∧
        out.length = sp.length ∧ out.map tfShape = sp.map tfShape) ∧
      bernoulli_fn (.scalar s) sp seed = bernoulli_fn (.list [s]) sp seed) ∧
    ((∀ l, scale = .list l → l.length ≠ 1 → l.length ≠ sp.length →
        gaussian_round_fn scale sp seed =
          .error (.valueError ("`scale` must broadcast with `state_parts`"))) ∧
      (scaleOk scale sp → ∃ out, gaussian_round_fn scale sp seed = .ok out ∧
        out.length = sp.length ∧ out.map tfShape = sp.map tfShape) ∧
      gaussian_round_fn (.scalar s) sp seed = gaussian_round_fn (.list [s]) sp seed) ∧
    ((∀ l, scale = .list l → l.length ≠ 1 → l.length ≠ sp.length →
        poisson_fn scale sp seed =
          .error (.valueError ("`scale` must broadcast with `state_parts`"))) ∧
      (scaleOk scale sp → ∃ out, poisson_fn scale sp seed = .ok out ∧
        out.length = sp.length ∧ out.map tfShape = sp.map tfShape) ∧
      poisson_fn (.scalar s) sp seed = poisson_fn (.list [s]) sp seed) := by
  refine ⟨?_, ?_, ?_, ?_⟩
  · exact factory_spec
      (fun sc t => tfdCategoricalSample (List.replicate es ((1 : ℚ) / 2)) (tfShape t) seed)
      (fun sc t => tfShape_fullTensor t _) scale sp s
  · exact factory_spec
      (fun sc t => tmap pymod2 (tmap2 (· + ·) t (tfdBernoulliSample ((1 : ℚ) / 2 * sc) (tfShape t) seed)))
      (fun sc t => (tfShape_tmap pymod2 _).trans
        (tfShape_tmap2 _ t _ (tfShape_fullTensor t _))) scale sp s
  · exact factory_spec
      (fun sc t => tmap tfRound (tmap2 (· + ·) t (tfdNormalSample 0 (sc * 1) (tfShape t) seed)))
      (fun sc t => (tfShape_tmap tfRound _).trans
        (tfShape_tmap2 _ t _ (tfShape_fullTensor t _))) scale sp s
  · exact factory_spec
      (fun sc t => tfdPoissonSample (sc * 1) (tfShape t) seed)
      (fun sc t => tfShape_fullTensor t _) scale sp s

/-- C9 witness: a two-element list scale against three state parts raises
in each factory; a scalar scale on a one-part state returns a same-shaped
proposal; scalar and singleton scales agree. -/
theorem claim_C9_proposal_scale_contract_witness :
    categorical_uniform_fn 2 (.list [2, 3]) [Tensor.scalar 1, .scalar 4, .scalar 9] 7 =
      .error (.valueError ("`scale` must broadcast with `state_parts`")) ∧
    (∃ out, bernoulli_fn (.scalar 1) [Tensor.arr [.scalar 0, .scalar 1]] 7 = .ok out ∧
      out.length = 1 ∧
      out.map tfShape = ([Tensor.arr [.scalar 0, .scalar 1]] : List Tensor).map tfShape) ∧
    gaussian_round_fn (.scalar 2) [Tensor.scalar 5] 7 =
      gaussian_round_fn (.list [2]) [Tensor.scalar 5] 7 ∧
    poisson_fn (.list [2, 3]) [Tensor.scalar 1, .scalar 4, .scalar 9] 7 =
      .error (.valueError ("`scale` must broadcast with `state_parts`")) := by
  refine ⟨?_, ?_, ?_, ?_⟩
  · exact (claim_C9_proposal_scale_contract 2 (.list [2, 3])
      [Tensor.scalar 1, .scalar 4, .scalar 9] 7 0).1.1 [2, 3] rfl (by decide) (by decide)
  · exact (claim_C9_proposal_scale_contract 0 (.scalar 1)
      [Tensor.arr [.scalar 0, .scalar 1]] 7 0).2.1.2.1 trivial
  · exact (claim_C9_proposal_scale_contract 0 (.scalar 2) [Tensor.scalar 5] 7 2).2.2.1.2.2
  · exact (claim_C9_proposal_scale_contract 0 (.list [2, 3])
      [Tensor.scalar 1, .scalar 4, .scalar 9] 7 0).2.2.2.1 [2, 3] rfl (by decide) (by decide)

/-- The accepted-`scale` evaluation of the categorical proposal: the
output is a map over the state parts that reads only `tf.shape` of each
part (the zipped `scale_part` never reaches the sampled delta). -/
lemma categorical_ok_eval (es seed : Nat) (scale : ScaleArg) (sp : List Tensor)
    (h : scaleOk scale sp) :
    categorical_uniform_fn es scale sp seed =
      .ok (sp.map (fun t =>
        tfdCategoricalSample (List.replicate es ((1 : ℚ) / 2)) (tfShape t) seed)) := by
  obtain ⟨scales, hlen, heq⟩ := proposalBody_ok
    (fun sc t => tfdCategoricalSample (List.replicate es ((1 : ℚ) / 2)) (tfShape t) seed)
    scale sp h
  have hdef : categorical_uniform_fn es scale sp seed = proposalBody
      (fun sc t => tfdCategoricalSample (List.replicate es ((1 : ℚ) / 2)) (tfShape t) seed)
      scale sp := rfl
  rw [hdef, heq]
  congr 1
  exact zip_map_snd_eval _ _ (fun x y => rfl) sp scales hlen.ge

/-- C10: the categorical proposal callable is independent of the scale
values and of the state-part values: for a fixed `event_shape` and seed,
two accepted scale arguments and two state-part lists of pairwise equal
shapes produce identical proposals. -/
theorem claim_C10_categorical_value_independent (es seed : Nat)
    (scale1 scale2 : ScaleArg) (sp1 sp2 : List Tensor)
    (h1 : scaleOk scale1 sp1) (h2 : scaleOk scale2 sp2)
    (hsh : sp1.map tfShape = sp2.map tfShape) :
    categorical_uniform_fn es scale1 sp1 seed =
      categorical_uniform_fn es scale2 sp2 seed := by
  rw [categorical_ok_eval es seed scale1 sp1 h1, categorical_ok_eval es seed scale2 sp2 h2]
  have e1 : sp1.map (fun t =>
      tfdCategoricalSample (List.replicate es ((1 : ℚ) / 2)) (tfShape t) seed) =
      (sp1.map tfShape).map (fun sh =>
        tfdCategoricalSample (List.replicate es ((1 : ℚ) / 2)) sh seed) := by
    rw [List.map_map]; rfl
  have e2 : sp2.map (fun t =>
      tfdCategoricalSample (List.replicate es ((1 : ℚ) / 2)) (tfShape t) seed) =
      (sp2.map tfShape).map (fun sh =>
        tfdCategoricalSample (List.replicate es ((1 : ℚ) / 2)) sh seed) := by
    rw [List.map_map]; rfl
  rw [e1, e2, hsh]

/-- C10 witness: a scalar scale with state `[1, 2]` and a list scale with
state `[7, 8]` (same shapes) give the same proposals. -/
theorem claim_C10_categorical_value_independent_witness :
    categorical_uniform_fn 3 (.scalar 5) [Tensor.scalar 1, .scalar 2] 4 =
      categorical_uniform_fn 3 (.list [9, 9]) [Tensor.scalar 7, .scalar 8] 4 :=
  claim_C10_categorical_value_independent 3 4 (.scalar 5) (.list [9, 9])
    [Tensor.scalar 1, .scalar 2] [Tensor.scalar 7, .scalar 8]
    trivial (Or.inr rfl) rfl

end PyMC4
